import Mathlib

/-!
Shallow embedding of the motor-calibration diagnostic engine of this
repository: the functions diagnose_motor and diagnose_motor_bus of
src/lerobot/motors/diagnostics.py, the probe-normalization formula they
share with debug_gripper in src/lerobot/scripts/debug_gripper_direct.py,
and the aggregate all_healthy flag computed in
src/lerobot/scripts/lerobot_calibrate.py.

Raw encoder positions are modelled as rationals: the bus returns numeric
positions and every arithmetic step the claims mention is exact on the
sampled values.  One call bus.read of register Present_Position for a
motor either returns a position or raises; its outcome is modelled as
Except String Rat, the error carrying the exception message.
diagnose_motor performs at most four such reads, in program order:
the initial readability check, the zero sample, the max sample, and one
probe of the current position while testing the calibration formula; a
single run over one motor is therefore determined by a MotorReads record.
The blocking input(...) prompts to the operator are modelled as an output
trace of prompt strings returned beside the result, so that "the prompting
collaborator was never invoked" is the trace being empty.
-/

/-- Outcomes of the four reads of Present_Position that one run of
diagnose_motor can make, in program order.  A read the run never reaches
is simply ignored. -/
structure MotorReads where
  initialRead : Except String ℚ
  zeroRead : Except String ℚ
  maxRead : Except String ℚ
  probeRead : Except String ℚ

/-- Mirror of the Python dataclass MotorDiagnosticResult of
diagnostics.py, with the post-init defaults of the optional fields. -/
structure MotorDiagnosticResult where
  motor_name : String
  healthy : Bool
  position_readable : Bool
  position_changes : Bool
  position_range : ℚ
  zero_position : Option ℚ := none
  max_position : Option ℚ := none
  warnings : List String := []
  errors : List String := []
  deriving DecidableEq, Repr

/-- Error message built at diagnostics.py line 80, with the exception
text interpolated. -/
def cannot_read_position_error (e : String) : String :=
  "Cannot read motor position: " ++ e

/-- Error message built at diagnostics.py line 95. -/
def cannot_read_zero_error (e : String) : String :=
  "Cannot read zero position: " ++ e

/-- Error message built at diagnostics.py line 107. -/
def cannot_read_max_error (e : String) : String :=
  "Cannot read maximum position: " ++ e

/-- Error message appended at diagnostics.py lines 119-121 when the zero
and max samples coincide. -/
def degenerate_range_error : String :=
  "Position did not change between zero and max! This will cause division by zero during calibration."

/-- Warning appended at diagnostics.py lines 128-130 for a narrow range
(the Python formats the range with one decimal; the value itself is kept
here). -/
def narrow_range_warning (position_diff : ℚ) : String :=
  "Very small position range (" ++ toString position_diff ++ "). This may cause calibration issues."

/-- Warning appended at diagnostics.py lines 153-155 for a probe whose
calibrated value falls outside the band. -/
def out_of_band_warning (calib_value : ℚ) : String :=
  "Current position calibrates to " ++ toString calib_value ++ " percent (outside normal range [-10, 110])"

/-- Operator prompt issued at diagnostics.py line 88 before the zero
sample is read. -/
def zero_prompt (motor_name : String) : String :=
  "Move " ++ motor_name ++ " to its MINIMUM/ZERO position (e.g., fully closed for gripper), then press ENTER..."

/-- Operator prompt issued at diagnostics.py line 100 before the max
sample is read. -/
def max_prompt (motor_name : String) : String :=
  "Move " ++ motor_name ++ " to its MAXIMUM position (e.g., fully open for gripper), then press ENTER..."

/-- The calibration / normalization formula, identical at
diagnostics.py line 149 and debug_gripper_direct.py line 104:
(probe - zero) / denom * 100.  diagnose_motor passes the absolute span
as the denominator; debug_gripper passes the signed difference. -/
def calib_formula (probe_pos zero_pos denom : ℚ) : ℚ :=
  (probe_pos - zero_pos) / denom * 100

/-- The probe normalization of debug_gripper_direct.py lines 86-108: the
denominator is the signed difference rotated_pos - zero_pos. -/
def debug_gripper_calib (test_pos zero_pos rotated_pos : ℚ) : ℚ :=
  calib_formula test_pos zero_pos (rotated_pos - zero_pos)

/-- Embedding of diagnose_motor, diagnostics.py lines 49-162.  The second
component of the pair is the trace of operator prompts issued by the run:
input(...) is called once before the zero read and once before the max
read, and nowhere else (in particular not before the probe read). -/
def diagnose_motor (motor_name : String) (reads : MotorReads)
    (interactive : Bool) : MotorDiagnosticResult × List String :=
  let result : MotorDiagnosticResult :=
    { motor_name := motor_name, healthy := true, position_readable := false,
      position_changes := false, position_range := 0 }
  match reads.initialRead with
  | .error e =>
      ({ result with
          healthy := false,
          errors := result.errors ++ [cannot_read_position_error e] }, [])
  | .ok _initial_pos =>
      let result := { result with position_readable := true }
      if !interactive then (result, [])
      else
        match reads.zeroRead with
        | .error e =>
            ({ result with
                healthy := false,
                errors := result.errors ++ [cannot_read_zero_error e] },
             [zero_prompt motor_name])
        | .ok zero_pos =>
            let result := { result with zero_position := some zero_pos }
            match reads.maxRead with
            | .error e =>
                ({ result with
                    healthy := false,
                    errors := result.errors ++ [cannot_read_max_error e] },
                 [zero_prompt motor_name, max_prompt motor_name])
            | .ok max_pos =>
                let result := { result with max_position := some max_pos }
                let position_diff : ℚ := |max_pos - zero_pos|
                let result :=
                  { result with
                      position_range := position_diff,
                      position_changes := decide (position_diff > 0) }
                let result :=
                  if position_diff = 0 then
                    { result with
                        healthy := false,
                        errors := result.errors ++ [degenerate_range_error] }
                  else if position_diff < 100 then
                    { result with
                      warnings := result.warnings ++ [narrow_range_warning position_diff] }
                  else
                    { result with position_changes := true }
                let result :=
                  if position_diff > 0 then
                    match reads.probeRead with
                    | .error _e => result
                    | .ok current_pos =>
                        let calib_value := calib_formula current_pos zero_pos position_diff
                        if calib_value < -10 ∨ calib_value > 110 then
                          { result with
                            warnings := result.warnings ++ [out_of_band_warning calib_value] }
                        else result
                  else result
                (result, [zero_prompt motor_name, max_prompt motor_name])

/-- Embedding of diagnose_motor_bus, diagnostics.py lines 165-210:
every motor of the list gets its own diagnose_motor run over the read
outcomes of that motor.  The Python result dict keeps insertion order and is
modelled as an association list. -/
def diagnose_motor_bus (busReads : String → MotorReads)
    (motors : List String) (interactive : Bool) :
    List (String × MotorDiagnosticResult) :=
  motors.map fun motor_name =>
    (motor_name, (diagnose_motor motor_name (busReads motor_name) interactive).1)

/-- The summary flag of diagnose_motor_bus, diagnostics.py lines 191-199:
all_healthy starts true and is cleared whenever a result has a non-empty
errors list. -/
def summary_all_healthy (results : List (String × MotorDiagnosticResult)) : Bool :=
  results.foldl (fun acc r => if r.2.errors ≠ [] then false else acc) true

/-- The aggregate flag computed at lerobot_calibrate.py line 111:
the conjunction of the healthy field of every result. -/
def calibrate_all_healthy (results : List (String × MotorDiagnosticResult)) : Bool :=
  results.all fun r => r.2.healthy

/-- Invariant of diagnose_motor shared by several results below: the
healthy flag is true exactly when the errors list is empty, on every
control path of the function. -/
theorem diagnose_healthy_iff_errors (motor_name : String) (reads : MotorReads)
    (interactive : Bool) :
    (diagnose_motor motor_name reads interactive).1.healthy = true ↔
      (diagnose_motor motor_name reads interactive).1.errors = [] := by
  rcases reads with ⟨ir, zr, mr, pr⟩
  rcases ir with e | ip
  · simp [diagnose_motor]
  cases interactive
  · simp [diagnose_motor]
  rcases zr with e | z
  · simp [diagnose_motor]
  rcases mr with e | m
  · simp [diagnose_motor]
  rcases pr with e | p <;>
  · simp only [diagnose_motor]
    split_ifs <;> simp_all

/-- A fold whose accumulator can only be cleared stays false once false. -/
theorem foldl_and_false {α : Type} (f : α → Bool) (l : List α) :
    l.foldl (fun acc r => f r && acc) false = false := by
  induction l with
  | nil => rfl
  | cons x t ih => simpa using ih

/-- On the output of diagnose_motor_bus, the summary flag of
diagnostics.py lines 191-199 (cleared on a non-empty errors list) agrees
with the flag of lerobot_calibrate.py line 111 (the conjunction of the
healthy fields). -/
theorem summary_eq_calibrate (busReads : String → MotorReads)
    (motors : List String) (interactive : Bool) :
    summary_all_healthy (diagnose_motor_bus busReads motors interactive) =
      calibrate_all_healthy (diagnose_motor_bus busReads motors interactive) := by
  induction motors with
  | nil => rfl
  | cons m t ih =>
    have hh := diagnose_healthy_iff_errors m (busReads m) interactive
    by_cases he : (diagnose_motor m (busReads m) interactive).1.errors = []
    · have hy : (diagnose_motor m (busReads m) interactive).1.healthy = true := hh.mpr he
      simpa [diagnose_motor_bus, summary_all_healthy, calibrate_all_healthy, he, hy] using ih
    · have hy : (diagnose_motor m (busReads m) interactive).1.healthy = false := by
        cases hb : (diagnose_motor m (busReads m) interactive).1.healthy
        · rfl
        · exact absurd (hh.mp hb) he
      simp [diagnose_motor_bus, summary_all_healthy, calibrate_all_healthy, he, hy]
      exact foldl_and_false _ _

/-- Claim C1: when the zero and max samples are read successfully and
coincide (any integer value), the diagnostic classifies the range as
degenerate: healthy is false, position_range (the span) is 0, and the
error naming the division-by-zero risk is appended, whatever the probe
read does. -/
theorem C1_degenerate_range_unhealthy (motor_name : String) (initial_pos : ℚ)
    (z : ℤ) (pr : Except String ℚ) :
    ((diagnose_motor motor_name ⟨.ok initial_pos, .ok (z : ℚ), .ok (z : ℚ), pr⟩ true).1.healthy
      = false) ∧
    ((diagnose_motor motor_name ⟨.ok initial_pos, .ok (z : ℚ), .ok (z : ℚ), pr⟩ true).1.position_range
      = 0) ∧
    degenerate_range_error ∈
      (diagnose_motor motor_name ⟨.ok initial_pos, .ok (z : ℚ), .ok (z : ℚ), pr⟩ true).1.errors := by
  simp [diagnose_motor]

/-- Claim C2, counterexample: diagnose_motor normalizes probes against
the absolute span.  With zero = 100 and max = 0 (span = -100, nonzero)
the probe taken at the max endpoint normalizes to -100, not 100, and the
run flags that probe as out of band. -/
theorem C2_abs_span_counterexample :
    calib_formula 0 100 |(0 : ℚ) - 100| = -100 ∧
    (diagnose_motor "gripper" ⟨.ok 100, .ok 100, .ok 0, .ok 0⟩ true).1.warnings
      = [out_of_band_warning (-100)] := by
  constructor
  · norm_num [calib_formula]
  · norm_num [diagnose_motor, calib_formula]

/-- Claim C2 as amended: with the formula as diagnose_motor applies it
(denominator the absolute span), the zero endpoint normalizes to 0 for
any nonzero span, and the max endpoint normalizes to 100 when
max > zero but to -100 when max < zero; the signed-span variant used by
debug_gripper_direct.py maps the endpoints to 0 and 100 for any nonzero
span. -/
theorem C2_endpoint_normalization_amended (zero_pos max_pos : ℚ)
    (h : max_pos ≠ zero_pos) :
    calib_formula zero_pos zero_pos |max_pos - zero_pos| = 0 ∧
    (zero_pos < max_pos → calib_formula max_pos zero_pos |max_pos - zero_pos| = 100) ∧
    (max_pos < zero_pos → calib_formula max_pos zero_pos |max_pos - zero_pos| = -100) ∧
    debug_gripper_calib zero_pos zero_pos max_pos = 0 ∧
    debug_gripper_calib max_pos zero_pos max_pos = 100 := by
  have hsub : max_pos - zero_pos ≠ 0 := sub_ne_zero.mpr h
  refine ⟨?_, ?_, ?_, ?_, ?_⟩
  · simp [calib_formula]
  · intro hlt
    rw [calib_formula, abs_of_pos (sub_pos.mpr hlt), div_self hsub]
    norm_num
  · intro hlt
    rw [calib_formula, abs_of_neg (sub_neg.mpr hlt), div_neg, div_self hsub]
    norm_num
  · simp [debug_gripper_calib, calib_formula]
  · rw [debug_gripper_calib, calib_formula, div_self hsub]
    norm_num

/-- Witness for the amended claim C2, at zero = 0 and max = 1000. -/
theorem C2_endpoint_normalization_amended_witness :
    calib_formula 0 0 |(1000 : ℚ) - 0| = 0 ∧
    ((0 : ℚ) < 1000 → calib_formula 1000 0 |(1000 : ℚ) - 0| = 100) ∧
    ((1000 : ℚ) < 0 → calib_formula 1000 0 |(1000 : ℚ) - 0| = -100) ∧
    debug_gripper_calib 0 0 1000 = 0 ∧
    debug_gripper_calib 1000 0 1000 = 100 :=
  C2_endpoint_normalization_amended 0 1000 (by norm_num)

/-- Claim C3, counterexample: a probe read failure is caught and logged
but nothing is appended to the result.  With successful initial, zero and
max reads (zero = 0, max = 1000) and a failing probe read, the returned
result has empty warnings and empty errors, where the claim requires a
warning to be appended for the caught probe failure. -/
theorem C3_probe_failure_counterexample :
    ((diagnose_motor "gripper" ⟨.ok 0, .ok 0, .ok 1000, .error "timeout"⟩ true).1.warnings
      = []) ∧
    ((diagnose_motor "gripper" ⟨.ok 0, .ok 0, .ok 1000, .error "timeout"⟩ true).1.errors = []) := by
  norm_num [diagnose_motor]

/-- Claim C3 as amended: read failures in the position-check, zero and
max phases each append their error to the result before it is returned,
while a probe-phase read failure is caught, does not abort the run, and
appends nothing: the run returns exactly the result it would return had
the probe read succeeded with an in-band value (the zero sample itself). -/
theorem C3_error_recording_amended (motor_name e : String)
    (initial_pos zero_pos max_pos : ℚ) (zr mr pr : Except String ℚ)
    (interactive : Bool) :
    ((diagnose_motor motor_name ⟨.error e, zr, mr, pr⟩ interactive).1.errors
       = [cannot_read_position_error e]) ∧
    ((diagnose_motor motor_name ⟨.ok initial_pos, .error e, mr, pr⟩ true).1.errors
       = [cannot_read_zero_error e]) ∧
    ((diagnose_motor motor_name ⟨.ok initial_pos, .ok zero_pos, .error e, pr⟩ true).1.errors
       = [cannot_read_max_error e]) ∧
    (diagnose_motor motor_name ⟨.ok initial_pos, .ok zero_pos, .ok max_pos, .error e⟩ true
       = diagnose_motor motor_name ⟨.ok initial_pos, .ok zero_pos, .ok max_pos, .ok zero_pos⟩ true) := by
  refine ⟨rfl, rfl, rfl, ?_⟩
  simp only [diagnose_motor, calib_formula]
  split_ifs <;> simp_all <;> norm_num at *

/-- Claim C4: for every bus behavior, every motor of the list gets its
own entry in the report (a failure of one motor cannot suppress another
motor, since each entry is the independent diagnostic of that motor), and
aggregate all_healthy flag of lerobot_calibrate.py is false exactly when
some result has healthy = false; the errors-based summary flag printed by
diagnose_motor_bus agrees with it. -/
theorem C4_bus_independence_and_aggregate (busReads : String → MotorReads)
    (motors : List String) (interactive : Bool) :
    ((diagnose_motor_bus busReads motors interactive).map Prod.fst = motors) ∧
    (calibrate_all_healthy (diagnose_motor_bus busReads motors interactive) = false ↔
      ∃ p ∈ diagnose_motor_bus busReads motors interactive, p.2.healthy = false) ∧
    (summary_all_healthy (diagnose_motor_bus busReads motors interactive) =
      calibrate_all_healthy (diagnose_motor_bus busReads motors interactive)) := by
  refine ⟨?_, ?_, summary_eq_calibrate busReads motors interactive⟩
  · induction motors with
    | nil => rfl
    | cons m t ih => simpa [diagnose_motor_bus] using ih
  · simp [calibrate_all_healthy, List.all_eq_true]

/-- Claim C5: when the initial Present_Position read fails, the run
returns at once with position_readable false, healthy false and the read
error recorded, the later read outcomes are never consulted, and the
prompt trace is empty: the operator-prompting collaborator is never
invoked. -/
theorem C5_unreadable_position_early_exit (motor_name e : String)
    (zr mr pr : Except String ℚ) (interactive : Bool) :
    diagnose_motor motor_name ⟨.error e, zr, mr, pr⟩ interactive =
      ({ motor_name := motor_name, healthy := false, position_readable := false,
         position_changes := false, position_range := 0,
         errors := [cannot_read_position_error e] }, []) := rfl

/-- Claim C6: for successfully read zero and max samples with
0 < span < 100 in absolute value, the run appends the narrow-range
warning (it is the first warning of the result), appends no error, and
returns healthy = true, whatever the probe read does. -/
theorem C6_narrow_range_warning_healthy (motor_name : String)
    (initial_pos zero_pos max_pos : ℚ) (pr : Except String ℚ)
    (h0 : 0 < |max_pos - zero_pos|) (h1 : |max_pos - zero_pos| < 100) :
    ((diagnose_motor motor_name ⟨.ok initial_pos, .ok zero_pos, .ok max_pos, pr⟩ true).1.warnings.head?
      = some (narrow_range_warning |max_pos - zero_pos|)) ∧
    ((diagnose_motor motor_name ⟨.ok initial_pos, .ok zero_pos, .ok max_pos, pr⟩ true).1.errors
      = []) ∧
    ((diagnose_motor motor_name ⟨.ok initial_pos, .ok zero_pos, .ok max_pos, pr⟩ true).1.healthy
      = true) := by
  have hne : ¬(|max_pos - zero_pos| = 0) := ne_of_gt h0
  rcases pr with e | p
  · simp [diagnose_motor, hne, h1, h0]
  · simp only [diagnose_motor]
    split_ifs <;> simp_all

/-- Witness for claim C6, at the spec example zero = 2048, max = 2090
(span 42). -/
theorem C6_narrow_range_warning_healthy_witness :
    ((diagnose_motor "gripper" ⟨.ok 100, .ok 2048, .ok 2090, .ok 2048⟩ true).1.warnings.head?
      = some (narrow_range_warning |(2090 : ℚ) - 2048|)) ∧
    ((diagnose_motor "gripper" ⟨.ok 100, .ok 2048, .ok 2090, .ok 2048⟩ true).1.errors = []) ∧
    ((diagnose_motor "gripper" ⟨.ok 100, .ok 2048, .ok 2090, .ok 2048⟩ true).1.healthy = true) :=
  C6_narrow_range_warning_healthy "gripper" 100 2048 2090 (.ok 2048)
    (by norm_num) (by norm_num)

/-- Claim C7: on a fully successful run with nonzero span, the warnings
of the result are exactly the narrow-range warning when the span is
narrow followed by exactly one out-of-band warning when the probe
normalizes outside [-10, 110] and nothing for a probe inside the band;
no error is appended and healthy stays true either way. -/
theorem C7_probe_band_warnings (motor_name : String)
    (initial_pos zero_pos max_pos probe_pos : ℚ) (h : zero_pos ≠ max_pos) :
    ((diagnose_motor motor_name ⟨.ok initial_pos, .ok zero_pos, .ok max_pos, .ok probe_pos⟩ true).1.errors
      = []) ∧
    ((diagnose_motor motor_name ⟨.ok initial_pos, .ok zero_pos, .ok max_pos, .ok probe_pos⟩ true).1.healthy
      = true) ∧
    ((diagnose_motor motor_name ⟨.ok initial_pos, .ok zero_pos, .ok max_pos, .ok probe_pos⟩ true).1.warnings =
      (if |max_pos - zero_pos| < 100 then [narrow_range_warning |max_pos - zero_pos|] else []) ++
      (if calib_formula probe_pos zero_pos |max_pos - zero_pos| < -10 ∨
          calib_formula probe_pos zero_pos |max_pos - zero_pos| > 110 then
        [out_of_band_warning (calib_formula probe_pos zero_pos |max_pos - zero_pos|)]
      else [])) := by
  have hne : ¬(|max_pos - zero_pos| = 0) := by
    simp [abs_eq_zero, sub_eq_zero]
    exact fun hc => h hc.symm
  simp only [diagnose_motor]
  split_ifs <;> simp_all

/-- Witness for claim C7, at zero = 0, max = 1000 and an out-of-band
probe at 5000 (normalizing to 500 percent). -/
theorem C7_probe_band_warnings_witness :
    ((diagnose_motor "gripper" ⟨.ok 0, .ok 0, .ok 1000, .ok 5000⟩ true).1.errors = []) ∧
    ((diagnose_motor "gripper" ⟨.ok 0, .ok 0, .ok 1000, .ok 5000⟩ true).1.healthy = true) ∧
    ((diagnose_motor "gripper" ⟨.ok 0, .ok 0, .ok 1000, .ok 5000⟩ true).1.warnings =
      (if |(1000 : ℚ) - 0| < 100 then [narrow_range_warning |(1000 : ℚ) - 0|] else []) ++
      (if calib_formula 5000 0 |(1000 : ℚ) - 0| < -10 ∨
          calib_formula 5000 0 |(1000 : ℚ) - 0| > 110 then
        [out_of_band_warning (calib_formula 5000 0 |(1000 : ℚ) - 0|)]
      else [])) :=
  C7_probe_band_warnings "gripper" 0 0 1000 5000 (by norm_num)

/-- Claim C8: when the zero sample was read but the max read fails, the
result keeps the measured zero_position, max_position stays unset,
healthy is false and the max-read error is recorded (both operator
prompts were issued by then). -/
theorem C8_max_read_failure_preserves_zero (motor_name e : String)
    (initial_pos zero_pos : ℚ) (pr : Except String ℚ) :
    diagnose_motor motor_name ⟨.ok initial_pos, .ok zero_pos, .error e, pr⟩ true =
      ({ motor_name := motor_name, healthy := false, position_readable := true,
         position_changes := false, position_range := 0,
         zero_position := some zero_pos,
         errors := [cannot_read_max_error e] },
       [zero_prompt motor_name, max_prompt motor_name]) := rfl

/-- Claim C9: on every control path of diagnose_motor the returned
healthy flag is true exactly when the errors list is empty; warnings
alone never clear it. -/
theorem C9_healthy_iff_errors_empty (motor_name : String) (reads : MotorReads)
    (interactive : Bool) :
    (diagnose_motor motor_name reads interactive).1.healthy = true ↔
      (diagnose_motor motor_name reads interactive).1.errors = [] :=
  diagnose_healthy_iff_errors motor_name reads interactive

/-- Claim C10: with interactive = false and a successful initial read,
the run returns immediately after the position check: healthy true,
position_readable true, both endpoints unset, range 0, no warnings, no
errors, and no prompt issued, whatever the later read outcomes would be. -/
theorem C10_non_interactive_early_return (motor_name : String) (initial_pos : ℚ)
    (zr mr pr : Except String ℚ) :
    diagnose_motor motor_name ⟨.ok initial_pos, zr, mr, pr⟩ false =
      ({ motor_name := motor_name, healthy := true, position_readable := true,
         position_changes := false, position_range := 0 }, []) := rfl
